import Mathlib

/-!
Verification of the device-selection, queue-family-resolution and
swapchain-construction logic of the rust-vulkan repository
(src/app.rs, src/info.rs, src/main.rs), as a shallow embedding.

Vulkan handles are modelled as natural numbers; Vulkan enumeration values
use their numeric codes from the C API.  Driver queries are modelled by
baking their results for the bound surface into the `PhysicalDevice`
record: the fields hold exactly what the corresponding
`instance.get_physical_device_*` call would have returned.  `u32` values
are natural numbers; the only arithmetic performed on them in the
embedded code is `min_image_count + 1`, which is taken modulo 2^32 where
it occurs.
-/

namespace RustVulkan

/-- 2^32, the number of `u32` values. -/
def U32 : Nat := 2 ^ 32

/-- `u32::MAX`, the sentinel used by `get_swapchain_extent`. -/
def U32_MAX : Nat := 2 ^ 32 - 1

/-- Numeric code of `vk::PhysicalDeviceType::DISCRETE_GPU`. -/
def DISCRETE_GPU : Nat := 2

/-- Numeric code of `vk::Format::B8G8R8A8_SRGB`. -/
def FORMAT_B8G8R8A8_SRGB : Nat := 50

/-- Numeric code of `vk::ColorSpaceKHR::SRGB_NONLINEAR`. -/
def COLOR_SPACE_SRGB_NONLINEAR : Nat := 0

/-- Numeric code of `vk::PresentModeKHR::MAILBOX`. -/
def PRESENT_MODE_MAILBOX : Nat := 1

/-- Numeric code of `vk::PresentModeKHR::FIFO`. -/
def PRESENT_MODE_FIFO : Nat := 2

/-- Numeric code of `vk::ComponentSwizzle::IDENTITY`. -/
def COMPONENT_SWIZZLE_IDENTITY : Nat := 0

/-- Numeric code of `vk::ImageAspectFlags::COLOR`. -/
def IMAGE_ASPECT_COLOR : Nat := 1

/-- Numeric code of `vk::ImageViewType::_2D`. -/
def IMAGE_VIEW_TYPE_2D : Nat := 1

/-- `const VALIDATION_ENABLED: bool = true` (main.rs line 29). -/
def VALIDATION_ENABLED : Bool := true

/-- Modelled from the spec: the constant `DEVICE_EXTENSIONS` is referenced
from app.rs and info.rs (`crate::DEVICE_EXTENSIONS`) but its defining
source file is not under src/; the spec describes it as "a fixed, named
set (at minimum, the presentation/swapchain capability)". -/
def DEVICE_EXTENSIONS : List String := ["VK_KHR_swapchain"]

/-- `vk::Extent2D`: a width/height pair of `u32`. -/
structure Extent2D where
  width : Nat
  height : Nat
deriving DecidableEq, Repr

/-- The window's inner size (`window.inner_size()`), in pixels. -/
structure WindowSize where
  width : Nat
  height : Nat
deriving DecidableEq, Repr

/-- `vk::SurfaceFormatKHR`: a pixel format paired with a color space. -/
structure SurfaceFormatKHR where
  format : Nat
  color_space : Nat
deriving DecidableEq, Repr

/-- The fields of `vk::SurfaceCapabilitiesKHR` read by the embedded code. -/
structure SurfaceCapabilitiesKHR where
  min_image_count : Nat
  max_image_count : Nat
  current_extent : Extent2D
  min_image_extent : Extent2D
  max_image_extent : Extent2D
  current_transform : Nat
deriving DecidableEq, Repr

/-- One entry of the queue-family property list, restricted to the data the
code inspects: whether `queue_flags` contains `vk::QueueFlags::GRAPHICS`,
and the result of `get_physical_device_surface_support_khr` for this
family index against the bound surface. -/
structure QueueFamily where
  graphics : Bool
  present_support : Bool
deriving DecidableEq, Repr

/-- `QueueFamilyIndices` (info.rs lines 16-20). -/
structure QueueFamilyIndices where
  graphics : Nat
  present : Nat
deriving DecidableEq, Repr

/-- A physical device together with the results the driver would return
for every query the embedded code performs on it (all surface-dependent
queries are against the one surface stored in `AppData`). -/
structure PhysicalDevice where
  handle : Nat
  device_type : Nat
  geometry_shader : Bool
  extension_names : List String
  queue_families : List QueueFamily
  capabilities : SurfaceCapabilitiesKHR
  formats : List SurfaceFormatKHR
  present_modes : List Nat
deriving DecidableEq, Repr

/-- `AppData` (app.rs lines 362-370). -/
structure AppData where
  messenger : Nat
  physical_device : Nat
  graphics_queue : Nat
  surface : Nat
  present_queue : Nat
  swapchain : Nat
deriving DecidableEq, Repr

/-- `SwapchainSupport` (info.rs lines 57-62). -/
structure SwapchainSupport where
  capabilities : SurfaceCapabilitiesKHR
  formats : List SurfaceFormatKHR
  present_modes : List Nat
deriving DecidableEq, Repr

/-- The distinct error values produced by the embedded checks, one per
distinct `SuitabilityError` message in the source:
`notDiscreteGpu` = "Only discrete GPUs supported",
`missingGeometryShader` = "Missing geometry shader support",
`missingQueueFamilies` = "Missing required queue families",
`missingExtensions` = "Device does not have required extensions",
`insufficientSwapchain` = "Insuficient swapchain support". -/
inductive CheckError where
  | notDiscreteGpu
  | missingGeometryShader
  | missingQueueFamilies
  | missingExtensions
  | insufficientSwapchain
deriving DecidableEq, Repr

/-- First index of the list satisfying the predicate, mirroring both
`Iterator::position` (used for the graphics search) and the indexed
`for`-loop with `break` (used for the present search) in
`QueueFamilyIndices::get`. -/
def firstIdx (p : α → Bool) : List α → Option Nat
  | [] => none
  | x :: xs => if p x then some 0 else (firstIdx p xs).map (· + 1)

/-- First element of the list satisfying the predicate, mirroring
`Iterator::find`. -/
def findFirst (p : α → Bool) : List α → Option α
  | [] => none
  | x :: xs => if p x then some x else findFirst p xs

/-- `QueueFamilyIndices::get` (info.rs lines 22-55): graphics index is the
first family whose flags contain GRAPHICS; present index is the first
family index whose surface-support query returns true; if either search
fails the whole call fails with "Missing required queue families". -/
def QueueFamilyIndices.get (d : PhysicalDevice) :
    Except CheckError QueueFamilyIndices :=
  let graphics := firstIdx (fun p => p.graphics) d.queue_families
  let present := firstIdx (fun p => p.present_support) d.queue_families
  match graphics, present with
  | some g, some p => Except.ok { graphics := g, present := p }
  | _, _ => Except.error CheckError.missingQueueFamilies

/-- `SwapchainSupport::get` (info.rs lines 64-79): bundles the three
surface queries for the device against the bound surface. -/
def SwapchainSupport.get (d : PhysicalDevice) : SwapchainSupport :=
  { capabilities := d.capabilities
    formats := d.formats
    present_modes := d.present_modes }

/-- `App::check_physical_device_extensions` (app.rs lines 210-224): all
required extensions must be members of the device's enumerated extension
name set. -/
def check_physical_device_extensions (d : PhysicalDevice) :
    Except CheckError Unit :=
  if DEVICE_EXTENSIONS.all (fun e => d.extension_names.contains e) then
    Except.ok ()
  else
    Except.error CheckError.missingExtensions

/-- The predicate of the source's `find` call in
`get_swapchain_surface_format`: the format is `B8G8R8A8_SRGB` and the
color space is `SRGB_NONLINEAR`. -/
def preferredFormat (f : SurfaceFormatKHR) : Bool :=
  f.format == FORMAT_B8G8R8A8_SRGB &&
  f.color_space == COLOR_SPACE_SRGB_NONLINEAR

/-- `App::get_swapchain_surface_format` (app.rs lines 226-236, identical
in info.rs lines 213-224).  The source ends in
`.unwrap_or_else(|| formats[0])`; the index panics when the list is
empty, which the embedding reflects by returning `none` in exactly that
case (`List.head?` of the empty list). -/
def get_swapchain_surface_format (formats : List SurfaceFormatKHR) :
    Option SurfaceFormatKHR :=
  match findFirst preferredFormat formats with
  | some f => some f
  | none => formats.head?

/-- `App::get_swapchain_present_mode` (app.rs lines 238-247): first
MAILBOX entry if any, otherwise FIFO. -/
def get_swapchain_present_mode (present_modes : List Nat) : Nat :=
  match findFirst (fun m => m == PRESENT_MODE_MAILBOX) present_modes with
  | some m => m
  | none => PRESENT_MODE_FIFO

/-- `App::get_swapchain_extent` (app.rs lines 249-270): the current extent
verbatim unless its width is the `u32::MAX` sentinel, in which case the
window size is clamped per axis by `|min, max, v| min.max(max.min(v))`. -/
def get_swapchain_extent (size : WindowSize)
    (capabilites : SurfaceCapabilitiesKHR) : Extent2D :=
  if capabilites.current_extent.width ≠ U32_MAX then
    capabilites.current_extent
  else
    let clamp := fun (lo hi v : Nat) => Nat.max lo (Nat.min hi v)
    { width := clamp capabilites.min_image_extent.width
        capabilites.max_image_extent.width size.width
      height := clamp capabilites.min_image_extent.height
        capabilites.max_image_extent.height size.height }

/-- `App::check_physical_device` (app.rs lines 128-155).  The Rust
function receives `data: &mut AppData`; the embedding threads the state
through each step and returns it alongside the verdict, mirroring that
every statement of the body either reads `data` through a shared borrow
or does not touch it.  The check sequence is exactly the source's:
device type, geometry-shader feature, `QueueFamilyIndices::get`,
`check_physical_device_extensions`, then swapchain support. -/
def check_physical_device (data : AppData) (d : PhysicalDevice) :
    Except CheckError Unit × AppData :=
  if d.device_type ≠ DISCRETE_GPU then
    (Except.error CheckError.notDiscreteGpu, data)
  else if d.geometry_shader ≠ true then
    (Except.error CheckError.missingGeometryShader, data)
  else
    match QueueFamilyIndices.get d with
    | Except.error e => (Except.error e, data)
    | Except.ok _ =>
      match check_physical_device_extensions d with
      | Except.error e => (Except.error e, data)
      | Except.ok _ =>
        let support := SwapchainSupport.get d
        if support.formats.isEmpty || support.present_modes.isEmpty then
          (Except.error CheckError.insufficientSwapchain, data)
        else
          (Except.ok (), data)

/-- `App::pick_physical_device` (app.rs lines 108-126): walk the
enumerated devices in order; a device failing `check_physical_device` is
only logged and skipped; the first passing device is stored in
`data.physical_device` and iteration stops; if the list is exhausted the
whole call fails. -/
def pick_physical_device (data : AppData) :
    List PhysicalDevice → Except String AppData
  | [] => Except.error "Failed to find suitable physical device."
  | d :: rest =>
    let res := check_physical_device data d
    match res.1 with
    | Except.error _ => pick_physical_device res.2 rest
    | Except.ok _ => Except.ok { res.2 with physical_device := d.handle }

/-- The requested image count of `create_swapchain` (app.rs lines
172-177, identical in info.rs lines 107-113): `min_image_count + 1` (a
`u32` addition, hence modulo 2^32), lowered to `max_image_count` when
that maximum is nonzero and exceeded. -/
def swapchain_image_count (c : SurfaceCapabilitiesKHR) : Nat :=
  let image_count := (c.min_image_count + 1) % U32
  if c.max_image_count ≠ 0 ∧ image_count > c.max_image_count then
    c.max_image_count
  else
    image_count

/-- `vk::SharingMode`. -/
inductive SharingMode where
  | exclusive
  | concurrent
deriving DecidableEq, Repr

/-- The sharing-mode selection of `create_swapchain` (app.rs lines
179-186, identical in info.rs lines 115-122): start from an empty
queue-family-index vector; when graphics and present indices differ,
push both and use CONCURRENT, otherwise leave the vector empty and use
EXCLUSIVE.  Returns the pair (image_sharing_mode, queue_family_indices)
that is passed to `SwapchainCreateInfoKHR`. -/
def swapchain_sharing (indices : QueueFamilyIndices) :
    SharingMode × List Nat :=
  if indices.graphics ≠ indices.present then
    (SharingMode.concurrent, [indices.graphics, indices.present])
  else
    (SharingMode.exclusive, [])

/-- `vk::ComponentMapping`: the four channel swizzles. -/
structure ComponentMapping where
  r : Nat
  g : Nat
  b : Nat
  a : Nat
deriving DecidableEq, Repr

/-- `vk::ImageSubresourceRange`. -/
structure ImageSubresourceRange where
  aspect_mask : Nat
  base_mip_level : Nat
  level_count : Nat
  base_array_layer : Nat
  layer_count : Nat
deriving DecidableEq, Repr

/-- The fields of `vk::ImageViewCreateInfo` set by the source. -/
structure ImageViewCreateInfo where
  image : Nat
  view_type : Nat
  format : Nat
  components : ComponentMapping
  subresource_range : ImageSubresourceRange
deriving DecidableEq, Repr

/-- `SwapchainData::create_swapchain_image_views` (info.rs lines
159-193): one create-info per swapchain image, identity swizzle on all
four channels, and the subresource range the source builds — note the
source sets `.layer_count(0)` (info.rs line 175).  The embedding returns
the create-infos handed to `device.create_image_view`. -/
def create_swapchain_image_views (images : List Nat) (format : Nat) :
    List ImageViewCreateInfo :=
  let components : ComponentMapping :=
    { r := COMPONENT_SWIZZLE_IDENTITY
      g := COMPONENT_SWIZZLE_IDENTITY
      b := COMPONENT_SWIZZLE_IDENTITY
      a := COMPONENT_SWIZZLE_IDENTITY }
  let subresource_range : ImageSubresourceRange :=
    { aspect_mask := IMAGE_ASPECT_COLOR
      base_mip_level := 0
      level_count := 1
      base_array_layer := 0
      layer_count := 0 }
  images.map (fun i =>
    { image := i
      view_type := IMAGE_VIEW_TYPE_2D
      format := format
      components := components
      subresource_range := subresource_range })

/-- One native-handle destruction event, labelled by the kind of handle
being released. -/
inductive DestroyEvent where
  | debugMessenger
  | swapchainKHR
  | logicalDevice
  | surfaceKHR
  | instanceVk
  | imageView (i : Nat)
deriving DecidableEq, Repr

/-- The sequence of destruction calls performed by `App::destroy`
(app.rs lines 277-292), in source order: the debug messenger (only under
validation), then `destroy_swapchain_khr`, `destroy_device`,
`destroy_surface_khr`, `destroy_instance`. -/
def app_destroy_trace : List DestroyEvent :=
  (if VALIDATION_ENABLED then [DestroyEvent.debugMessenger] else []) ++
  [DestroyEvent.swapchainKHR, DestroyEvent.logicalDevice,
   DestroyEvent.surfaceKHR, DestroyEvent.instanceVk]

/-- The sequence of destruction calls performed by `SwapchainData::destroy`
(info.rs lines 155-157): only `destroy_swapchain_khr`. -/
def swapchain_data_destroy_trace : List DestroyEvent :=
  [DestroyEvent.swapchainKHR]

/-! ### Concrete fixtures used by witnesses and counterexamples -/

/-- A default `AppData`, as produced by `AppData::default()`. -/
def data0 : AppData :=
  { messenger := 0, physical_device := 0, graphics_queue := 0,
    surface := 0, present_queue := 0, swapchain := 0 }

/-- The preferred surface format: `B8G8R8A8_SRGB` with `SRGB_NONLINEAR`. -/
def preferred_format_value : SurfaceFormatKHR :=
  { format := FORMAT_B8G8R8A8_SRGB, color_space := COLOR_SPACE_SRGB_NONLINEAR }

/-- An unremarkable capabilities snapshot. -/
def caps_plain : SurfaceCapabilitiesKHR :=
  { min_image_count := 2, max_image_count := 0,
    current_extent := { width := 600, height := 600 },
    min_image_extent := { width := 1, height := 1 },
    max_image_extent := { width := 4096, height := 4096 },
    current_transform := 0 }

/-- A discrete GPU with geometry shaders whose extension check and
queue-family check both fail (no extensions, no queue families) but whose
surface support is fine. -/
def dev_no_queue_no_ext : PhysicalDevice :=
  { handle := 1, device_type := DISCRETE_GPU, geometry_shader := true,
    extension_names := [], queue_families := [],
    capabilities := caps_plain, formats := [preferred_format_value],
    present_modes := [PRESENT_MODE_FIFO] }

/-- A device passing every check of `check_physical_device`. -/
def dev_ok : PhysicalDevice :=
  { handle := 7, device_type := DISCRETE_GPU, geometry_shader := true,
    extension_names := DEVICE_EXTENSIONS,
    queue_families := [{ graphics := true, present_support := true }],
    capabilities := caps_plain, formats := [preferred_format_value],
    present_modes := [PRESENT_MODE_FIFO] }

/-- The capabilities snapshot of the claim's extent example: min (100,100),
max (1000,1000), sentinel current extent. -/
def caps_sentinel : SurfaceCapabilitiesKHR :=
  { min_image_count := 2, max_image_count := 0,
    current_extent := { width := U32_MAX, height := U32_MAX },
    min_image_extent := { width := 100, height := 100 },
    max_image_extent := { width := 1000, height := 1000 },
    current_transform := 0 }

/-- A capabilities snapshot with the given image-count bounds and zeroed
extents. -/
def caps_counts (lo hi : Nat) : SurfaceCapabilitiesKHR :=
  { min_image_count := lo, max_image_count := hi,
    current_extent := { width := 0, height := 0 },
    min_image_extent := { width := 0, height := 0 },
    max_image_extent := { width := 0, height := 0 },
    current_transform := 0 }

/-- A format list whose preferred entry is not in first position. -/
def formats_with_preferred : List SurfaceFormatKHR :=
  [{ format := 0, color_space := 0 }, preferred_format_value]

/-! ### Helper lemmas about the first-match searches -/

theorem findFirst_eq_none {p : α → Bool} {l : List α} :
    findFirst p l = none ↔ ∀ x ∈ l, p x = false := by
  induction l with
  | nil => simp [findFirst]
  | cons x xs ih =>
    by_cases hx : p x
    · simp [findFirst, hx]
    · simp only [findFirst, if_neg hx, List.mem_cons]
      constructor
      · intro h y hy
        rcases hy with rfl | hy
        · exact Bool.eq_false_iff.mpr hx
        · exact ih.mp h y hy
      · intro h
        exact ih.mpr (fun y hy => h y (Or.inr hy))

theorem findFirst_eq_some {p : α → Bool} {l : List α} {a : α}
    (h : findFirst p l = some a) :
    ∃ i : Fin l.length, l.get i = a ∧ p a = true ∧
      ∀ j (hj : j < i.val), p (l.get ⟨j, lt_trans hj i.isLt⟩) = false := by
  induction l with
  | nil => simp [findFirst] at h
  | cons x xs ih =>
    by_cases hx : p x
    · simp only [findFirst, if_pos hx, Option.some.injEq] at h
      subst h
      exact ⟨⟨0, by simp⟩, rfl, hx, fun j hj => absurd hj (Nat.not_lt_zero j)⟩
    · simp only [findFirst, if_neg hx] at h
      obtain ⟨i, hget, hp, hfirst⟩ := ih h
      refine ⟨⟨i.val + 1, by simp [Nat.succ_lt_succ i.isLt]⟩, ?_, hp, ?_⟩
      · simpa using hget
      · intro j hj
        match j with
        | 0 => exact Bool.eq_false_iff.mpr hx
        | j + 1 =>
          have hj' : j < i.val := Nat.lt_of_succ_lt_succ hj
          simpa using hfirst j hj'

theorem firstIdx_eq_none {p : α → Bool} {l : List α} :
    firstIdx p l = none ↔ ∀ x ∈ l, p x = false := by
  induction l with
  | nil => simp [firstIdx]
  | cons x xs ih =>
    by_cases hx : p x
    · simp [firstIdx, hx]
    · simp only [firstIdx, if_neg hx, Option.map_eq_none', List.mem_cons]
      constructor
      · intro h y hy
        rcases hy with rfl | hy
        · exact Bool.eq_false_iff.mpr hx
        · exact ih.mp h y hy
      · intro h
        exact ih.mpr (fun y hy => h y (Or.inr hy))

theorem firstIdx_eq_some {p : α → Bool} {l : List α} {i : Nat}
    (h : firstIdx p l = some i) :
    ∃ hi : i < l.length, p (l.get ⟨i, hi⟩) = true ∧
      ∀ j (hj : j < i), p (l.get ⟨j, lt_trans hj hi⟩) = false := by
  induction l generalizing i with
  | nil => simp [firstIdx] at h
  | cons x xs ih =>
    by_cases hx : p x
    · simp only [firstIdx, if_pos hx, Option.some.injEq] at h
      subst h
      exact ⟨by simp, hx, fun j hj => absurd hj (Nat.not_lt_zero j)⟩
    · simp only [firstIdx, if_neg hx, Option.map_eq_some'] at h
      obtain ⟨i', hi', rfl⟩ := h
      obtain ⟨hlt, hp, hfirst⟩ := ih hi'
      refine ⟨by simpa using Nat.succ_lt_succ hlt, by simpa using hp, ?_⟩
      intro j hj
      match j with
      | 0 => exact Bool.eq_false_iff.mpr hx
      | j + 1 =>
        have hj' : j < i' := Nat.lt_of_succ_lt_succ hj
        simpa using hfirst j hj'

theorem findFirst_eq_of_mem {p : α → Bool} {l : List α} {x : α}
    (hx : x ∈ l) (hp : p x = true) (huniq : ∀ y, p y = true → y = x) :
    findFirst p l = some x := by
  induction l with
  | nil => cases hx
  | cons a as ih =>
    by_cases ha : p a
    · have hax : a = x := huniq a ha
      subst hax
      simp [findFirst, ha]
    · have hx' : x ∈ as := by
        rcases List.mem_cons.mp hx with rfl | h
        · exact absurd hp (by simpa using ha)
        · exact h
      simp [findFirst, ha, ih hx']

theorem preferredFormat_iff (f : SurfaceFormatKHR) :
    preferredFormat f = true ↔ f = preferred_format_value := by
  cases f
  simp only [preferredFormat, preferred_format_value, Bool.and_eq_true,
    beq_iff_eq, SurfaceFormatKHR.mk.injEq]

theorem check_physical_device_data_eq (data : AppData) (d : PhysicalDevice) :
    (check_physical_device data d).2 = data := by
  rw [check_physical_device]
  split
  · rfl
  · split
    · rfl
    · split
      · rfl
      · split
        · rfl
        · dsimp only
          split
          · rfl
          · rfl

/-! ### Claim theorems -/

/-- C1, counterexample: on `dev_no_queue_no_ext` both the required-extension
check and the queue-family check fail.  The claim orders the extension check
(c) before the queue-family check (d), so it predicts the extension error;
the code returns the queue-family error, because app.rs lines 145-147 run
`QueueFamilyIndices::get` before `check_physical_device_extensions`. -/
theorem C1_extensions_before_queues_counterexample :
    check_physical_device_extensions dev_no_queue_no_ext =
      Except.error CheckError.missingExtensions ∧
    (check_physical_device data0 dev_no_queue_no_ext).1 =
      Except.error CheckError.missingQueueFamilies ∧
    CheckError.missingQueueFamilies ≠ CheckError.missingExtensions := by
  refine ⟨rfl, rfl, by decide⟩

/-- C1, amended: `check_physical_device` runs its checks in the order
(a) device class is discrete GPU, (b) geometry-shader feature present,
(d) queue-family resolution succeeds, (c) required device extensions all
present, (e) surface negotiation yields at least one format and one
present mode; it short-circuits, returning the error of the first failing
check in that order and never evaluating any later check. -/
theorem C1_check_order_amended (data : AppData) (d : PhysicalDevice) :
    (d.device_type ≠ DISCRETE_GPU →
      (check_physical_device data d).1 =
        Except.error CheckError.notDiscreteGpu) ∧
    (d.device_type = DISCRETE_GPU → d.geometry_shader = false →
      (check_physical_device data d).1 =
        Except.error CheckError.missingGeometryShader) ∧
    (d.device_type = DISCRETE_GPU → d.geometry_shader = true →
      QueueFamilyIndices.get d = Except.error CheckError.missingQueueFamilies →
      (check_physical_device data d).1 =
        Except.error CheckError.missingQueueFamilies) ∧
    (∀ q, d.device_type = DISCRETE_GPU → d.geometry_shader = true →
      QueueFamilyIndices.get d = Except.ok q →
      check_physical_device_extensions d =
        Except.error CheckError.missingExtensions →
      (check_physical_device data d).1 =
        Except.error CheckError.missingExtensions) ∧
    (∀ q, d.device_type = DISCRETE_GPU → d.geometry_shader = true →
      QueueFamilyIndices.get d = Except.ok q →
      check_physical_device_extensions d = Except.ok () →
      (d.formats.isEmpty || d.present_modes.isEmpty) = true →
      (check_physical_device data d).1 =
        Except.error CheckError.insufficientSwapchain) ∧
    (∀ q, d.device_type = DISCRETE_GPU → d.geometry_shader = true →
      QueueFamilyIndices.get d = Except.ok q →
      check_physical_device_extensions d = Except.ok () →
      (d.formats.isEmpty || d.present_modes.isEmpty) = false →
      (check_physical_device data d).1 = Except.ok ()) := by
  refine ⟨?_, ?_, ?_, ?_, ?_, ?_⟩
  · intro h1
    simp [check_physical_device, h1]
  · intro h1 h2
    simp [check_physical_device, h1, h2]
  · intro h1 h2 h3
    simp [check_physical_device, h1, h2, h3]
  · intro q h1 h2 h3 h4
    simp [check_physical_device, h1, h2, h3, h4]
  · intro q h1 h2 h3 h4 h5
    simp [check_physical_device, SwapchainSupport.get, h1, h2, h3, h4, h5]
  · intro q h1 h2 h3 h4 h5
    simp [check_physical_device, SwapchainSupport.get, h1, h2, h3, h4, h5]

/-- Witness for C1: the amended order theorem applied at the concrete
device `dev_ok`, discharging every hypothesis of its final conjunct. -/
theorem C1_check_order_amended_witness :
    (check_physical_device data0 dev_ok).1 = Except.ok () :=
  (C1_check_order_amended data0 dev_ok).2.2.2.2.2
    { graphics := 0, present := 0 } rfl rfl rfl rfl rfl

/-- C2, code evaluation: `App::destroy` releases the debug messenger, the
swapchain, the logical device, the surface and the instance, in that
order, each exactly once, and `SwapchainData::destroy` releases only the
swapchain; no destroy path of the code releases any image view, although
`SwapchainData::create_swapchain` creates one view per image. -/
theorem C2_destroy_trace_eval :
    app_destroy_trace =
      [DestroyEvent.debugMessenger, DestroyEvent.swapchainKHR,
       DestroyEvent.logicalDevice, DestroyEvent.surfaceKHR,
       DestroyEvent.instanceVk] ∧
    app_destroy_trace.Nodup ∧
    (∀ e ∈ app_destroy_trace, ∀ i, e ≠ DestroyEvent.imageView i) ∧
    swapchain_data_destroy_trace = [DestroyEvent.swapchainKHR] := by
  refine ⟨rfl, by decide, ?_, rfl⟩
  intro e he i
  fin_cases he <;> simp

/-- C3, counterexample: on the empty supported-format list the code fails
(the fallback `formats[0]` indexes an empty slice and panics, modelled as
`none`), although the claim covers "every supported-format list
(including the empty list)" and says the call never fails. -/
theorem C3_empty_list_counterexample :
    get_swapchain_surface_format [] = none := rfl

/-- C3, amended: for every NON-EMPTY supported-format list,
`get_swapchain_surface_format` returns, without failing, the 8-bit BGRA
SRGB / SRGB-non-linear pair when it occurs in the list, and otherwise
the first element of the list. -/
theorem C3_surface_format_selection (formats : List SurfaceFormatKHR)
    (h : formats ≠ []) :
    (preferred_format_value ∈ formats →
      get_swapchain_surface_format formats = some preferred_format_value) ∧
    (preferred_format_value ∉ formats →
      get_swapchain_surface_format formats = formats.head?) ∧
    (get_swapchain_surface_format formats).isSome = true := by
  have key : ∀ y, preferredFormat y = true → y = preferred_format_value :=
    fun y hy => (preferredFormat_iff y).mp hy
  refine ⟨?_, ?_, ?_⟩
  · intro hm
    have hfind : findFirst preferredFormat formats = some preferred_format_value :=
      findFirst_eq_of_mem hm ((preferredFormat_iff _).mpr rfl) key
    simp [get_swapchain_surface_format, hfind]
  · intro hnm
    have hnone : findFirst preferredFormat formats = none := by
      apply findFirst_eq_none.mpr
      intro x hx
      cases hpp : preferredFormat x
      · rfl
      · exact absurd ((key x hpp) ▸ hx) hnm
    simp [get_swapchain_surface_format, hnone]
  · cases hf : findFirst preferredFormat formats with
    | some f => simp [get_swapchain_surface_format, hf]
    | none =>
      cases formats with
      | nil => exact absurd rfl h
      | cons a as => simp [get_swapchain_surface_format, hf]

/-- Witness for C3: the amended selection theorem applied at a concrete
two-element list whose preferred entry sits in second position. -/
theorem C3_surface_format_selection_witness :
    get_swapchain_surface_format formats_with_preferred =
      some preferred_format_value :=
  (C3_surface_format_selection formats_with_preferred (by decide)).1
    (by decide)

/-- C4: `get_swapchain_extent` returns the capabilities' current extent
verbatim whenever its width is not `u32::MAX`; otherwise it returns the
window's inner size with each axis independently clamped into
[min_image_extent, max_image_extent]; in particular, for min (100,100),
max (1000,1000), the sentinel current extent and window size (50,2000),
the result is (100,1000). -/
theorem C4_swapchain_extent (size : WindowSize) (c : SurfaceCapabilitiesKHR)
    (hw : c.min_image_extent.width ≤ c.max_image_extent.width)
    (hh : c.min_image_extent.height ≤ c.max_image_extent.height) :
    (c.current_extent.width ≠ U32_MAX →
      get_swapchain_extent size c = c.current_extent) ∧
    (c.current_extent.width = U32_MAX →
      (get_swapchain_extent size c).width =
        Nat.min (Nat.max size.width c.min_image_extent.width)
          c.max_image_extent.width ∧
      (get_swapchain_extent size c).height =
        Nat.min (Nat.max size.height c.min_image_extent.height)
          c.max_image_extent.height) ∧
    get_swapchain_extent { width := 50, height := 2000 } caps_sentinel =
      { width := 100, height := 1000 } := by
  refine ⟨?_, ?_, by decide⟩
  · intro hne
    simp [get_swapchain_extent, hne]
  · intro heq
    simp only [get_swapchain_extent, heq, ne_eq, not_true_eq_false,
      if_false]
    constructor <;> dsimp only <;>
      simp only [Nat.max_def, Nat.min_def] <;> split_ifs <;> omega

/-- Witness for C4: the extent theorem applied at the claim's concrete
snapshot and window size, discharging the per-axis well-formedness
hypotheses. -/
theorem C4_swapchain_extent_witness :
    get_swapchain_extent { width := 50, height := 2000 } caps_sentinel =
      { width := 100, height := 1000 } :=
  (C4_swapchain_extent { width := 50, height := 2000 } caps_sentinel
    (by decide) (by decide)).2.2

/-- C5: in swapchain creation, equal graphics/present indices yield
EXCLUSIVE sharing with an empty queue-family-index list; distinct indices
yield CONCURRENT sharing with a list containing exactly the graphics and
the present index, each appearing once. -/
theorem C5_sharing_mode (indices : QueueFamilyIndices) :
    (indices.graphics = indices.present →
      swapchain_sharing indices = (SharingMode.exclusive, [])) ∧
    (indices.graphics ≠ indices.present →
      (swapchain_sharing indices).1 = SharingMode.concurrent ∧
      (swapchain_sharing indices).2.count indices.graphics = 1 ∧
      (swapchain_sharing indices).2.count indices.present = 1 ∧
      (swapchain_sharing indices).2.length = 2 ∧
      ∀ x ∈ (swapchain_sharing indices).2,
        x = indices.graphics ∨ x = indices.present) := by
  constructor
  · intro h
    simp [swapchain_sharing, h]
  · intro h
    refine ⟨?_, ?_, ?_, ?_, ?_⟩
    · simp [swapchain_sharing, h]
    · simp [swapchain_sharing, h, List.count_cons, beq_iff_eq, Ne.symm h]
    · simp [swapchain_sharing, h, List.count_cons, beq_iff_eq, Ne.symm h]
    · simp [swapchain_sharing, h]
    · intro x hx
      simp only [swapchain_sharing, if_pos h] at hx
      simpa using hx

/-- Witness for C5: the sharing theorem applied at concrete equal and
distinct index pairs. -/
theorem C5_sharing_mode_witness :
    swapchain_sharing { graphics := 3, present := 3 } =
      (SharingMode.exclusive, []) ∧
    (swapchain_sharing { graphics := 0, present := 1 }).1 =
      SharingMode.concurrent := by
  constructor
  · exact (C5_sharing_mode { graphics := 3, present := 3 }).1 rfl
  · exact ((C5_sharing_mode { graphics := 0, present := 1 }).2 (by decide)).1

/-- C6: the requested swapchain image count is `min_image_count + 1`,
lowered to `max_image_count` exactly when that maximum is nonzero and
exceeded; in particular min=2,max=0 yields 3 and min=2,max=2 yields 2. -/
theorem C6_image_count (c : SurfaceCapabilitiesKHR)
    (h : c.min_image_count + 1 < U32) :
    (c.max_image_count = 0 →
      swapchain_image_count c = c.min_image_count + 1) ∧
    (c.max_image_count ≠ 0 → c.min_image_count + 1 > c.max_image_count →
      swapchain_image_count c = c.max_image_count) ∧
    (c.max_image_count ≠ 0 → c.min_image_count + 1 ≤ c.max_image_count →
      swapchain_image_count c = c.min_image_count + 1) ∧
    swapchain_image_count (caps_counts 2 0) = 3 ∧
    swapchain_image_count (caps_counts 2 2) = 2 := by
  have hmod : (c.min_image_count + 1) % U32 = c.min_image_count + 1 :=
    Nat.mod_eq_of_lt h
  refine ⟨?_, ?_, ?_, by decide, by decide⟩
  all_goals
    intros
    simp only [swapchain_image_count, hmod]
    split_ifs <;> omega

/-- Witness for C6: the image-count theorem applied at the claim's
concrete min=2, max=0 snapshot, discharging the no-overflow
hypothesis. -/
theorem C6_image_count_witness :
    swapchain_image_count (caps_counts 2 0) = 3 :=
  (C6_image_count (caps_counts 2 0) (by decide)).2.2.2.1

/-- C7: for every queue-family property list, `QueueFamilyIndices::get`
returns the index of the first graphics-capable family as the graphics
index and the first family index whose surface-support query returns
true as the present index, the two searches running independently in
enumeration order; if either role has no matching family it returns the
missing-queue-families error instead. -/
theorem C7_queue_family_first_match (d : PhysicalDevice) :
    (∀ g p, QueueFamilyIndices.get d =
        Except.ok { graphics := g, present := p } →
      (∃ hg : g < d.queue_families.length,
        (d.queue_families.get ⟨g, hg⟩).graphics = true ∧
        ∀ j (hj : j < g),
          (d.queue_families.get ⟨j, lt_trans hj hg⟩).graphics = false) ∧
      (∃ hp : p < d.queue_families.length,
        (d.queue_families.get ⟨p, hp⟩).present_support = true ∧
        ∀ j (hj : j < p),
          (d.queue_families.get ⟨j, lt_trans hj hp⟩).present_support =
            false)) ∧
    (((∀ f ∈ d.queue_families, f.graphics = false) ∨
      (∀ f ∈ d.queue_families, f.present_support = false)) →
      QueueFamilyIndices.get d =
        Except.error CheckError.missingQueueFamilies) := by
  constructor
  · intro g p hok
    simp only [QueueFamilyIndices.get] at hok
    split at hok
    · rename_i heqg heqp
      simp only [Except.ok.injEq, QueueFamilyIndices.mk.injEq] at hok
      obtain ⟨rfl, rfl⟩ := hok
      obtain ⟨hgl, hgp, hgf⟩ := firstIdx_eq_some heqg
      obtain ⟨hpl, hpp, hpf⟩ := firstIdx_eq_some heqp
      exact ⟨⟨hgl, hgp, hgf⟩, ⟨hpl, hpp, hpf⟩⟩
    · simp at hok
  · intro hcase
    simp only [QueueFamilyIndices.get]
    rcases hcase with hall | hall
    · have hnone : firstIdx (fun f => f.graphics) d.queue_families = none :=
        firstIdx_eq_none.mpr (fun x hx => hall x hx)
      rw [hnone]
    · have hnone :
          firstIdx (fun f => f.present_support) d.queue_families = none :=
        firstIdx_eq_none.mpr (fun x hx => hall x hx)
      rw [hnone]
      cases firstIdx (fun f => f.graphics) d.queue_families <;> rfl

/-- Witness for C7: the first-match theorem applied at the concrete
devices `dev_ok` (both roles found at index 0) and `dev_no_queue_no_ext`
(no queue family at all, so the call errors). -/
theorem C7_queue_family_first_match_witness :
    (∃ hg : 0 < dev_ok.queue_families.length,
      (dev_ok.queue_families.get ⟨0, hg⟩).graphics = true) ∧
    QueueFamilyIndices.get dev_no_queue_no_ext =
      Except.error CheckError.missingQueueFamilies := by
  constructor
  · obtain ⟨⟨hg, hgr, _⟩, _⟩ :=
      (C7_queue_family_first_match dev_ok).1 0 0 rfl
    exact ⟨hg, hgr⟩
  · exact (C7_queue_family_first_match dev_no_queue_no_ext).2
      (Or.inl (by simp [dev_no_queue_no_ext]))

/-- C8: `pick_physical_device` walks the enumerated devices in order; a
device failing the Prober is skipped without aborting the enumeration;
the first passing device is stored into `AppData.physical_device` and
the walk stops immediately; if no device passes, the aggregate
no-suitable-device error is returned. -/
theorem C8_pick_first_suitable (data : AppData) :
    (∀ d rest e, (check_physical_device data d).1 = Except.error e →
      pick_physical_device data (d :: rest) =
        pick_physical_device data rest) ∧
    (∀ d rest, (check_physical_device data d).1 = Except.ok () →
      pick_physical_device data (d :: rest) =
        Except.ok { data with physical_device := d.handle }) ∧
    (∀ pre d post,
      (∀ x ∈ pre, (check_physical_device data x).1 ≠ Except.ok ()) →
      (check_physical_device data d).1 = Except.ok () →
      pick_physical_device data (pre ++ d :: post) =
        Except.ok { data with physical_device := d.handle }) ∧
    (∀ devices,
      (∀ x ∈ devices, (check_physical_device data x).1 ≠ Except.ok ()) →
      pick_physical_device data devices =
        Except.error "Failed to find suitable physical device.") := by
  have herr : ∀ x, (check_physical_device data x).1 ≠ Except.ok () →
      ∃ e, (check_physical_device data x).1 = Except.error e := by
    intro x hx
    cases hc : (check_physical_device data x).1 with
    | error e => exact ⟨e, rfl⟩
    | ok u => cases u; exact absurd hc hx
  have hskip : ∀ d rest e,
      (check_physical_device data d).1 = Except.error e →
      pick_physical_device data (d :: rest) =
        pick_physical_device data rest := by
    intro d rest e he
    simp only [pick_physical_device]
    split
    · rw [check_physical_device_data_eq]
    · rename_i u heq
      rw [he] at heq
      simp at heq
  have hsel : ∀ d rest, (check_physical_device data d).1 = Except.ok () →
      pick_physical_device data (d :: rest) =
        Except.ok { data with physical_device := d.handle } := by
    intro d rest hd
    simp only [pick_physical_device]
    split
    · rename_i e heq
      rw [hd] at heq
      simp at heq
    · rw [check_physical_device_data_eq]
  have hfirst : ∀ pre d post,
      (∀ x ∈ pre, (check_physical_device data x).1 ≠ Except.ok ()) →
      (check_physical_device data d).1 = Except.ok () →
      pick_physical_device data (pre ++ d :: post) =
        Except.ok { data with physical_device := d.handle } := by
    intro pre
    induction pre with
    | nil =>
      intro d post _ hd
      simpa using hsel d post hd
    | cons a as ih =>
      intro d post hall hd
      obtain ⟨e, he⟩ := herr a (hall a (List.mem_cons_self a as))
      rw [List.cons_append, hskip a (as ++ d :: post) e he]
      exact ih d post (fun x hx => hall x (List.mem_cons_of_mem a hx)) hd
  have hnone : ∀ devices,
      (∀ x ∈ devices, (check_physical_device data x).1 ≠ Except.ok ()) →
      pick_physical_device data devices =
        Except.error "Failed to find suitable physical device." := by
    intro devices
    induction devices with
    | nil => intro; rfl
    | cons a as ih =>
      intro hall
      obtain ⟨e, he⟩ := herr a (hall a (List.mem_cons_self a as))
      rw [hskip a as e he]
      exact ih (fun x hx => hall x (List.mem_cons_of_mem a hx))
  exact ⟨hskip, hsel, hfirst, hnone⟩

/-- Witness for C8: the selection theorem applied at a concrete
enumeration whose first device fails the Prober and whose second passes:
the second is selected and stored. -/
theorem C8_pick_first_suitable_witness :
    pick_physical_device data0 [dev_no_queue_no_ext, dev_ok] =
      Except.ok { data0 with physical_device := dev_ok.handle } := by
  have happ := (C8_pick_first_suitable data0).2.2.1
    [dev_no_queue_no_ext] dev_ok []
    (by
      intro x hx
      have hxe : x = dev_no_queue_no_ext := by simpa using hx
      subst hxe
      have hce : (check_physical_device data0 dev_no_queue_no_ext).1 =
          Except.error CheckError.missingQueueFamilies := rfl
      simp [hce])
    rfl
  simpa using happ

/-- C9, code evaluation: for a concrete one-image list the code builds
exactly one 2D image-view create-info with identity swizzling on all four
channels and a color-aspect, single-mip subresource range — but with a
layer count of 0 (info.rs line 175 sets `.layer_count(0)`), not the
single array layer the claim states. -/
theorem C9_image_view_layer_count_eval :
    (create_swapchain_image_views [11] FORMAT_B8G8R8A8_SRGB).length = 1 ∧
    (∀ v ∈ create_swapchain_image_views [11] FORMAT_B8G8R8A8_SRGB,
      v.view_type = IMAGE_VIEW_TYPE_2D ∧
      v.components =
        { r := COMPONENT_SWIZZLE_IDENTITY, g := COMPONENT_SWIZZLE_IDENTITY,
          b := COMPONENT_SWIZZLE_IDENTITY,
          a := COMPONENT_SWIZZLE_IDENTITY } ∧
      v.subresource_range.aspect_mask = IMAGE_ASPECT_COLOR ∧
      v.subresource_range.base_mip_level = 0 ∧
      v.subresource_range.level_count = 1 ∧
      v.subresource_range.base_array_layer = 0 ∧
      v.subresource_range.layer_count = 0 ∧
      v.subresource_range.layer_count ≠ 1) := by decide

/-- C10: `check_physical_device` is a pure query with respect to the
aggregate state: the `AppData` it receives is returned completely
unchanged, whether it returns Ok or an error. -/
theorem C10_check_physical_device_pure (data : AppData)
    (d : PhysicalDevice) :
    (check_physical_device data d).2 = data :=
  check_physical_device_data_eq data d

end RustVulkan
